import Mathlib

/-!
A shallow embedding of `src/lib/iotransit-wb.js` (the `IoTransitWB`
class): the constructor with its option defaulting, the handlers that
`connect()` installs (connect, error, close, message) and the `sendWB`
method. An absent JavaScript value is modelled with `Option`; a thrown
JavaScript error surfaces as `Except.error`.
-/

namespace IoTransitWB

/-- Module-level default constant `AUTH_USER` of the source. -/
def AUTH_USER : String := "api1"

/-- Module-level default constant `AUTH_PASS` of the source. -/
def AUTH_PASS : String := "external"

/-- Module-level default constant `WEBSOCKETBRIDGE_URI` of the source. -/
def WEBSOCKETBRIDGE_URI : String := "127.0.0.1"

/-- Module-level default constant `WEBSOCKETBRIDGE_PORT` of the source. -/
def WEBSOCKETBRIDGE_PORT : Int := 444

/-- Module-level default constant `WEBSOCKETBRIDGE_SUBPROTOCOL` of the source. -/
def WEBSOCKETBRIDGE_SUBPROTOCOL : String := "wb.iotransit.net"

/-- Module-level default constant `WEBSOCKETBRIDGE_ORIGIN` of the source. -/
def WEBSOCKETBRIDGE_ORIGIN : String := "bridge"

/-- Module-level default constant `AUTO_RECONNECT` of the source. -/
def AUTO_RECONNECT : Bool := true

/-- Module-level default constant `RECONNECTION_TIMER` of the source. -/
def RECONNECTION_TIMER : Int := 5000

/-- Module-level default constant `SECURE_WEBSOCKET` of the source. -/
def SECURE_WEBSOCKET : Bool := true

/-- Value supplied for the `accepts` option: a string, an array of
strings, or any other JavaScript value (`other`). -/
inductive AcceptsVal where
  | str (s : String)
  | list (l : List String)
  | other
deriving DecidableEq

/-- The options object passed to the constructor; `none` models an
absent key. -/
structure OptionsIn where
  appletId : Option String := none
  accepts : Option AcceptsVal := none
  authUser : Option String := none
  authPass : Option String := none
  websocketBridgeUri : Option String := none
  websocketBridgePort : Option Int := none
  websocketBridgeSubProtocol : Option String := none
  websocketBridgeOrigin : Option String := none
  autoReconnect : Option Bool := none
  reconnectionTimer : Option Int := none
  secureWebSocket : Option Bool := none
deriving DecidableEq

/-- Constructor argument: `null` or `undefined`, a bare appletId
string, or an options object. -/
inductive CtorInput where
  | null
  | str (s : String)
  | obj (o : OptionsIn)
deriving DecidableEq

/-- The resolved `this.options` after the constructor has run.
`acceptTags` is `none` when the constructor left
`this.options.acceptTags` undefined, which happens when `accepts` is
supplied but is neither a string nor an array. -/
structure Config where
  appletId : String
  acceptTags : Option (List String)
  authUser : String
  authPass : String
  websocketBridgeUri : String
  websocketBridgePort : Int
  websocketBridgeSubProtocol : String
  websocketBridgeOrigin : String
  autoReconnect : Bool
  reconnectionTimer : Int
  secureWebSocket : Bool
deriving DecidableEq

/-- JavaScript truthy-or defaulting `x || d` for an optional string
field: an absent or empty (falsy) string yields the default. -/
def strOrDefault (v : Option String) (d : String) : String :=
  match v with
  | some s => if s = "" then d else s
  | none => d

/-- JavaScript truthy-or defaulting `x || d` for an optional numeric
field: an absent or zero (falsy) number yields the default. -/
def intOrDefault (v : Option Int) (d : Int) : Int :=
  match v with
  | some n => if n = 0 then d else n
  | none => d

/-- Presence-based defaulting, the `hasOwnProperty` ternary used for
`autoReconnect` and `secureWebSocket`: a supplied value is kept even
when falsy. -/
def boolOrDefault (v : Option Bool) (d : Bool) : Bool :=
  match v with
  | some b => b
  | none => d

/-- The `accepts` normalisation block of the constructor: absent gives
the singleton of `appletId`, a string is wrapped into a singleton, an
array is used as-is, and any other value leaves `acceptTags`
undefined. -/
def mkAcceptTags (appletId : String) (accepts : Option AcceptsVal) : Option (List String) :=
  match accepts with
  | none => some [appletId]
  | some (AcceptsVal.str s) => some [s]
  | some (AcceptsVal.list l) => some l
  | some AcceptsVal.other => none

/-- The defaulting tail of the constructor, applied once `appletId` is
known to be present on the options object. -/
def finishConfig (o : OptionsIn) (appletId : String) : Config :=
  { appletId := appletId
    acceptTags := mkAcceptTags appletId o.accepts
    authUser := strOrDefault o.authUser AUTH_USER
    authPass := strOrDefault o.authPass AUTH_PASS
    websocketBridgeUri := strOrDefault o.websocketBridgeUri WEBSOCKETBRIDGE_URI
    websocketBridgePort := intOrDefault o.websocketBridgePort WEBSOCKETBRIDGE_PORT
    websocketBridgeSubProtocol := strOrDefault o.websocketBridgeSubProtocol WEBSOCKETBRIDGE_SUBPROTOCOL
    websocketBridgeOrigin := strOrDefault o.websocketBridgeOrigin WEBSOCKETBRIDGE_ORIGIN
    autoReconnect := boolOrDefault o.autoReconnect AUTO_RECONNECT
    reconnectionTimer := intOrDefault o.reconnectionTimer RECONNECTION_TIMER
    secureWebSocket := boolOrDefault o.secureWebSocket SECURE_WEBSOCKET }

/-- The `IoTransitWB` constructor: a thrown `Error` is modelled as
`Except.error` carrying the thrown message. A bare string becomes an
options object holding only `appletId`; an options object must have an
`appletId` key. -/
def ctor : CtorInput → Except String Config
  | CtorInput.null => Except.error "mandatory appletId not passed to constructor"
  | CtorInput.obj o =>
      match o.appletId with
      | none => Except.error "mandatory appletId not provided in config"
      | some a => Except.ok (finishConfig o a)
  | CtorInput.str s => Except.ok (finishConfig { appletId := some s } s)

/-- The `acceptTags` of the configuration a constructor input
produces, or `none` when construction throws. -/
def ctorAcceptTags (i : CtorInput) : Option (Option (List String)) :=
  match ctor i with
  | Except.ok c => some c.acceptTags
  | Except.error _ => none

/-- A decoded inbound or outbound application record: a `t` tag and a
payload. The payload is opaque to the manager (only `t` is ever
inspected; the record is republished whole), so it is modelled as an
abstract token. -/
structure WBRecord where
  t : String
  p : String
deriving DecidableEq

/-- Events the manager can emit to its subscribers. -/
inductive Event where
  | connectionFailed (reason : String)
  | connection (reason : String)
  | connectionError (reason : String)
  | connectionClose (reason : String)
  | wbMessage (record : WBRecord)
  | sendError (reason : String)
deriving DecidableEq

/-- A JavaScript runtime error raised while a handler or method runs. -/
inductive JsError where
  | typeError (msg : String)
deriving DecidableEq

/-- The transport connection object, reduced to the `connected` flag
that `sendWB` consults. -/
structure WBConnection where
  connected : Bool
deriving DecidableEq

/-- The `WebSocketClient` stored in `this.wb`; `connection` is the
property the connect handler assigns. -/
structure WBClient where
  connection : Option WBConnection
deriving DecidableEq

/-- Manager instance state: `wb` is `none` until `connect()` has been
called, since only `connect()` assigns `this.wb`. -/
structure ManagerState where
  options : Config
  wb : Option WBClient
  websocketBridgeConnected : Bool
deriving DecidableEq

/-- A freshly constructed manager, before any `connect()` call. -/
def mkManager (cfg : Config) : ManagerState :=
  { options := cfg, wb := none, websocketBridgeConnected := false }

/-- JavaScript `Array.prototype.indexOf` on an array of strings,
carrying the index of the head of the remaining list. -/
def jsIndexOfFrom (l : List String) (x : String) (start : Nat) : Int :=
  match l with
  | [] => -1
  | a :: rest => if a = x then (start : Int) else jsIndexOfFrom rest x (start + 1)

/-- JavaScript `Array.prototype.indexOf`: first index of `x`, or -1. -/
def jsIndexOf (l : List String) (x : String) : Int :=
  jsIndexOfFrom l x 0

/-- Observable effects of the message handler. -/
inductive MsgEffect where
  | emit (e : Event)
  | consoleLog (s : String)
deriving DecidableEq

/-- An inbound transport frame. Text frames arrive already decoded
into their record: the handler only reads the `t` field of the parse
result and republishes the whole record, so JSON decoding itself is
abstracted away. -/
inductive Frame where
  | utf8 (record : WBRecord)
  | binary (len : Nat)
deriving DecidableEq

/-- The text branch of the message handler: the filter
`this.options.acceptTags.indexOf(rcvMsg.t) !== -1 \|\| rcvMsg.t ===
'all'` inside the switch default case. When `acceptTags` is undefined
the `indexOf` property read throws. -/
def routeUtf8 (acceptTags : Option (List String)) (r : WBRecord) : Except JsError (List MsgEffect) :=
  match acceptTags with
  | none => Except.error (JsError.typeError "cannot read indexOf of undefined")
  | some tags =>
      if jsIndexOf tags r.t != -1 || r.t == "all" then
        Except.ok [MsgEffect.emit (Event.wbMessage r)]
      else
        Except.ok []

/-- The message handler installed on the connection: text frames go
through the tag filter, binary frames are only logged. -/
def onMessage (cfg : Config) (f : Frame) : Except JsError (List MsgEffect) :=
  match f with
  | Frame.utf8 r => routeUtf8 cfg.acceptTags r
  | Frame.binary n =>
      Except.ok [MsgEffect.consoleLog
        ("websocket bridge client received a binary of " ++ toString n ++ " bytes")]

/-- Payload of the authentication request. `accept` carries
`this.options.acceptTags`, which may be undefined. -/
structure AuthPayload where
  user : String
  pass : String
  accept : Option (List String)
deriving DecidableEq

/-- The authentication request record sent over the new connection. -/
structure AuthMsg where
  t : String
  p : AuthPayload
deriving DecidableEq

/-- The authentication request the connect handler serialises and
sends: tag `authapp`, payload built from the configured credentials
and accepted tags. -/
def authMsg (cfg : Config) : AuthMsg :=
  { t := "authapp"
    p := { user := cfg.authUser, pass := cfg.authPass, accept := cfg.acceptTags } }

/-- One step the connect handler performs, in program order. -/
inductive ConnAction where
  | sendUTF (m : AuthMsg)
  | onRegister (eventName : String)
  | setConnection
  | setConnected (b : Bool)
  | emitEvent (e : Event)
deriving DecidableEq

/-- The body of the connect handler as the ordered list of steps it
performs: send the auth request, install the error and close handlers,
store the connection, set the connected flag, emit `connection`, and
install the message handler. -/
def onConnect (cfg : Config) : List ConnAction :=
  [ ConnAction.sendUTF (authMsg cfg),
    ConnAction.onRegister "error",
    ConnAction.onRegister "close",
    ConnAction.setConnection,
    ConnAction.setConnected true,
    ConnAction.emitEvent (Event.connection "websocket bridge connected"),
    ConnAction.onRegister "message" ]

/-- The network sends among a list of connect-handler steps. -/
def sentMessages (as : List ConnAction) : List AuthMsg :=
  as.filterMap (fun a =>
    match a with
    | ConnAction.sendUTF m => some m
    | _ => none)

/-- Where an emit call lands: on the manager object or on the
connection object. -/
inductive EmitTarget where
  | manager
  | connection
deriving DecidableEq

/-- The error handler on the live connection. It is installed with a
plain `function (err) ...` rather than an arrow function, so inside it
`this` is the emitter that invoked the listener — the connection
object — and not the manager: its `this.emit` call raises
`connectionError` on the connection. It touches no other state. -/
def onErrorEmit (err : String) : EmitTarget × Event :=
  (EmitTarget.connection, Event.connectionError err)

/-- Scheme string chosen at the top of `connect()` from
`secureWebSocket`. -/
def wsScheme (cfg : Config) : String :=
  if cfg.secureWebSocket then "wss://" else "ws://"

/-- Parameters of one `this.wb.connect(...)` call. -/
structure ConnectAttempt where
  url : String
  subProtocol : String
  origin : String
deriving DecidableEq

/-- The `this.wb.connect(...)` call issued by `connect()` itself. -/
def connectAttempt (cfg : Config) : ConnectAttempt :=
  { url := wsScheme cfg ++ cfg.websocketBridgeUri ++ ":" ++ toString cfg.websocketBridgePort ++ "/"
    subProtocol := cfg.websocketBridgeSubProtocol
    origin := cfg.websocketBridgeOrigin }

/-- The `this.wb.connect(...)` call made inside the close handler
retry callback, textually duplicated in the source. -/
def closeRetryAttempt (cfg : Config) : ConnectAttempt :=
  { url := wsScheme cfg ++ cfg.websocketBridgeUri ++ ":" ++ toString cfg.websocketBridgePort ++ "/"
    subProtocol := cfg.websocketBridgeSubProtocol
    origin := cfg.websocketBridgeOrigin }

/-- A `setTimeout` scheduled by a handler: the delay in milliseconds
and the connect call its callback will make. -/
structure ScheduledRetry where
  delay : Int
  attempt : ConnectAttempt
deriving DecidableEq

/-- Result of running the close handler: the updated manager state,
the events emitted on the manager, and the timers scheduled. -/
structure CloseResult where
  state : ManagerState
  events : List Event
  timers : List ScheduledRetry
deriving DecidableEq

/-- The close handler installed on the connection: clear the connected
flag, emit `connectionClose`, and when `autoReconnect` is set schedule
one retry after `reconnectionTimer` milliseconds. -/
def onClose (st : ManagerState) : CloseResult :=
  { state := { st with websocketBridgeConnected := false }
    events := [Event.connectionClose "websocket bridge connection closed"]
    timers :=
      if st.options.autoReconnect then
        [{ delay := st.options.reconnectionTimer, attempt := closeRetryAttempt st.options }]
      else [] }

/-- Result of a `sendWB` call that did not throw: the events emitted
and the serialised messages written to the network. -/
structure SendResult where
  events : List Event
  writes : List String
deriving DecidableEq

/-- The `sendWB` method: it first reads `this.wb.connection`, which
throws when `this.wb` is still undefined because `connect()` was never
called; otherwise it writes the message when a connection object
exists and its `connected` flag is set, and emits `sendError`
otherwise. -/
def sendWB (st : ManagerState) (sendMsg : String) : Except JsError SendResult :=
  match st.wb with
  | none => Except.error (JsError.typeError "cannot read connection of undefined")
  | some wb =>
      match wb.connection with
      | some conn =>
          if conn.connected then
            Except.ok { events := [], writes := [sendMsg] }
          else
            Except.ok { events := [Event.sendError "websocket bridge not connected"], writes := [] }
      | none =>
          Except.ok { events := [Event.sendError "websocket bridge not connected"], writes := [] }

/-! Helper definitions and lemmas shared by the claim theorems. -/

/-- A configuration built from the bare string `lights`, as in the
scenario of the specification. -/
def cfgLights : Config := finishConfig { appletId := some "lights" } "lights"

/-- Helper: `jsIndexOfFrom` returns -1 exactly when the element does
not occur. -/
theorem jsIndexOfFrom_eq_neg_one_iff (l : List String) (x : String) :
    ∀ start : Nat, jsIndexOfFrom l x start = -1 ↔ x ∉ l := by
  induction l with
  | nil =>
    intro s
    simp [jsIndexOfFrom]
  | cons a rest ih =>
    intro s
    by_cases hax : a = x
    · simp only [jsIndexOfFrom, if_pos hax]
      constructor
      · intro hs
        exact absurd hs (by omega)
      · intro hmem
        exact absurd (hax ▸ List.mem_cons_self a rest) hmem
    · simp only [jsIndexOfFrom, if_neg hax]
      rw [ih (s + 1)]
      constructor
      · intro hr hmem
        rcases List.mem_cons.mp hmem with h1 | h2
        · exact hax h1.symm
        · exact hr h2
      · intro hmem hr
        exact hmem (List.mem_cons_of_mem a hr)

/-- Helper: the `indexOf(x) !== -1` test is membership. -/
theorem jsIndexOf_ne_neg_one_iff (l : List String) (x : String) :
    jsIndexOf l x ≠ -1 ↔ x ∈ l := by
  show jsIndexOfFrom l x 0 ≠ -1 ↔ x ∈ l
  constructor
  · intro hne
    by_contra hx
    exact hne ((jsIndexOfFrom_eq_neg_one_iff l x 0).mpr hx)
  · intro hx heq
    exact (jsIndexOfFrom_eq_neg_one_iff l x 0).mp heq hx

/-! Claim theorems. -/

/-- C1: for every inbound text frame decoded to a record with tag `t`,
the manager emits a `wbMessage` event carrying the full decoded record
exactly when `t` is a member of the configured accepted-tag set or `t`
equals `all`; for any other `t` no `wbMessage` event is produced. -/
theorem c1_wbMessage_filter (cfg : Config) (tags : List String)
    (h : cfg.acceptTags = some tags) (r : WBRecord) :
    (r.t ∈ tags ∨ r.t = "all" →
      onMessage cfg (Frame.utf8 r) = Except.ok [MsgEffect.emit (Event.wbMessage r)]) ∧
    (¬ (r.t ∈ tags ∨ r.t = "all") →
      onMessage cfg (Frame.utf8 r) = Except.ok []) := by
  have hroute : onMessage cfg (Frame.utf8 r) = routeUtf8 (some tags) r := by
    simp [onMessage, h]
  have hcond : (jsIndexOf tags r.t != -1 || r.t == "all") = true ↔
      (r.t ∈ tags ∨ r.t = "all") := by
    simp only [Bool.or_eq_true, bne_iff_ne, beq_iff_eq]
    exact or_congr (jsIndexOf_ne_neg_one_iff tags r.t) Iff.rfl
  constructor
  · intro hc
    rw [hroute]
    simp only [routeUtf8]
    rw [if_pos (hcond.mpr hc)]
  · intro hc
    rw [hroute]
    simp only [routeUtf8]
    rw [if_neg (fun hb => hc (hcond.mp hb))]

/-- Witness for C1 at the concrete scenario config. -/
theorem c1_wbMessage_filter_witness :
    onMessage cfgLights (Frame.utf8 { t := "lights", p := "on" }) =
      Except.ok [MsgEffect.emit (Event.wbMessage { t := "lights", p := "on" })] :=
  (c1_wbMessage_filter cfgLights ["lights"] rfl { t := "lights", p := "on" }).1
    (Or.inl (List.mem_singleton.mpr rfl))

/-- C2 (code evaluated at the failing input): on a freshly constructed
manager, on which `connect()` was never called, `sendWB` throws a
`TypeError` because `this.wb` is undefined, instead of emitting
`sendError`; once `connect()` has assigned `this.wb` but no connection
is open, `sendWB` does emit exactly one `sendError` and writes
nothing. -/
theorem c2_send_unconnected :
    sendWB (mkManager cfgLights) "msg" =
      Except.error (JsError.typeError "cannot read connection of undefined") ∧
    sendWB { options := cfgLights, wb := some { connection := none },
             websocketBridgeConnected := false } "msg" =
      Except.ok { events := [Event.sendError "websocket bridge not connected"], writes := [] } ∧
    sendWB { options := cfgLights, wb := some { connection := some { connected := false } },
             websocketBridgeConnected := false } "msg" =
      Except.ok { events := [Event.sendError "websocket bridge not connected"], writes := [] } :=
  ⟨rfl, rfl, rfl⟩

/-- C3: on a transport close the manager emits `connectionClose` and
clears the connected flag; when `autoReconnect` is true it schedules
exactly one retry after `reconnectionTimer` milliseconds whose connect
call uses the same target parameters as the original attempt; when
`autoReconnect` is false no attempt is scheduled. -/
theorem c3_close_reconnect (st : ManagerState) :
    (onClose st).events = [Event.connectionClose "websocket bridge connection closed"] ∧
    (onClose st).state.websocketBridgeConnected = false ∧
    (st.options.autoReconnect = true →
      (onClose st).timers =
        [{ delay := st.options.reconnectionTimer, attempt := connectAttempt st.options }]) ∧
    (st.options.autoReconnect = false → (onClose st).timers = []) := by
  refine ⟨rfl, rfl, fun h => ?_, fun h => ?_⟩ <;>
    simp [onClose, connectAttempt, closeRetryAttempt, h]

/-- A configuration with reconnection disabled. -/
def cfgNoReconnect : Config :=
  finishConfig { appletId := some "x", autoReconnect := some false } "x"

/-- Witness for C3 at concrete configurations with reconnection
enabled and disabled. -/
theorem c3_close_reconnect_witness :
    (onClose (mkManager cfgLights)).timers =
      [{ delay := 5000, attempt := connectAttempt cfgLights }] ∧
    (onClose (mkManager cfgNoReconnect)).timers = [] := by
  have h1 := c3_close_reconnect (mkManager cfgLights)
  have h2 := c3_close_reconnect (mkManager cfgNoReconnect)
  exact ⟨(h1.2.2.1 rfl).trans (by rfl), h2.2.2.2 rfl⟩

/-- C4: the connect handler performs exactly one network send, the
authentication request with tag `authapp` carrying the configured
credentials and accepted tags, and that send precedes the emission of
the `connection` event. -/
theorem c4_auth_first (cfg : Config) :
    sentMessages (onConnect cfg) =
      [{ t := "authapp",
         p := { user := cfg.authUser, pass := cfg.authPass, accept := cfg.acceptTags } }] ∧
    ∃ i j : Nat, i < j ∧
      (onConnect cfg)[i]? = some (ConnAction.sendUTF (authMsg cfg)) ∧
      (onConnect cfg)[j]? =
        some (ConnAction.emitEvent (Event.connection "websocket bridge connected")) :=
  ⟨rfl, 0, 5, by decide, rfl, rfl⟩

/-- C5: the accepted-tag set is `[appletId]` when `accepts` is absent,
the singleton of the given string when `accepts` is a string, and the
given list when `accepts` is a list. -/
theorem c5_acceptTags (o : OptionsIn) (a : String) (h : o.appletId = some a) :
    (o.accepts = none → ctorAcceptTags (CtorInput.obj o) = some (some [a])) ∧
    (∀ s, o.accepts = some (AcceptsVal.str s) →
      ctorAcceptTags (CtorInput.obj o) = some (some [s])) ∧
    (∀ l, o.accepts = some (AcceptsVal.list l) →
      ctorAcceptTags (CtorInput.obj o) = some (some l)) := by
  refine ⟨fun hn => ?_, fun s hs => ?_, fun l hl => ?_⟩ <;>
    simp [ctorAcceptTags, ctor, h, finishConfig, mkAcceptTags, *]

/-- Witness for C5 at a concrete options object carrying a list
override. -/
theorem c5_acceptTags_witness :
    ctorAcceptTags (CtorInput.obj
      { appletId := some "lights", accepts := some (AcceptsVal.list ["a", "b"]) }) =
      some (some ["a", "b"]) :=
  (c5_acceptTags { appletId := some "lights", accepts := some (AcceptsVal.list ["a", "b"]) }
    "lights" rfl).2.2 ["a", "b"] rfl

/-- C6: constructing with no input, or with an options object lacking
`appletId`, throws synchronously at construction time, so no manager
instance exists and no connecting phase can be reached. -/
theorem c6_missing_appletId :
    ctor CtorInput.null = Except.error "mandatory appletId not passed to constructor" ∧
    ∀ o : OptionsIn, o.appletId = none →
      ctor (CtorInput.obj o) = Except.error "mandatory appletId not provided in config" := by
  refine ⟨rfl, fun o h => ?_⟩
  simp [ctor, h]

/-- Witness for C6 at a concrete options object without `appletId`. -/
theorem c6_missing_appletId_witness :
    ctor (CtorInput.obj { accepts := some (AcceptsVal.str "x") }) =
      Except.error "mandatory appletId not provided in config" :=
  c6_missing_appletId.2 { accepts := some (AcceptsVal.str "x") } rfl

/-- C7 (code evaluated at the failing input): the live-connection
error handler emits `connectionError` on the connection object, not on
the manager, because it is a plain function whose `this` is the
emitter invoking it; manager subscribers therefore never receive the
event. -/
theorem c7_connectionError_lost :
    (onErrorEmit "err").1 = EmitTarget.connection ∧
    (onErrorEmit "err").1 ≠ EmitTarget.manager ∧
    (onErrorEmit "err").2 = Event.connectionError "err" := by
  refine ⟨rfl, fun h => ?_, rfl⟩
  exact EmitTarget.noConfusion h

/-- An options object supplying a falsy (empty) `authUser`. -/
def oFalsyAuth : OptionsIn := { appletId := some "x", authUser := some "" }

/-- Counterexample to C8 as stated: supplying `authUser` as the empty
string does not keep the supplied value — JavaScript truthy-or
defaulting replaces it with the default `api1`. -/
theorem c8_merge_cex :
    ¬ (∀ (o : OptionsIn) (c : Config) (u : String),
        ctor (CtorInput.obj o) = Except.ok c → o.authUser = some u → c.authUser = u) := by
  intro hclaim
  have h := hclaim oFalsyAuth (finishConfig oFalsyAuth "x") "" rfl rfl
  exact absurd h (by decide)

/-- C8 (amended): every omitted field receives its documented default
independently; a supplied field is kept when it is presence-checked
(`autoReconnect`, `secureWebSocket`) or when its supplied value is
truthy (non-empty string, nonzero number); `appletId` is always
kept. -/
theorem c8_merge (o : OptionsIn) (a : String) (h : o.appletId = some a) (c : Config)
    (hc : ctor (CtorInput.obj o) = Except.ok c) :
    c.appletId = a ∧
    ((∀ u, o.authUser = some u → u ≠ "" → c.authUser = u) ∧
      (o.authUser = none → c.authUser = AUTH_USER)) ∧
    ((∀ u, o.authPass = some u → u ≠ "" → c.authPass = u) ∧
      (o.authPass = none → c.authPass = AUTH_PASS)) ∧
    ((∀ u, o.websocketBridgeUri = some u → u ≠ "" → c.websocketBridgeUri = u) ∧
      (o.websocketBridgeUri = none → c.websocketBridgeUri = WEBSOCKETBRIDGE_URI)) ∧
    ((∀ n, o.websocketBridgePort = some n → n ≠ 0 → c.websocketBridgePort = n) ∧
      (o.websocketBridgePort = none → c.websocketBridgePort = WEBSOCKETBRIDGE_PORT)) ∧
    ((∀ u, o.websocketBridgeSubProtocol = some u → u ≠ "" →
        c.websocketBridgeSubProtocol = u) ∧
      (o.websocketBridgeSubProtocol = none →
        c.websocketBridgeSubProtocol = WEBSOCKETBRIDGE_SUBPROTOCOL)) ∧
    ((∀ u, o.websocketBridgeOrigin = some u → u ≠ "" → c.websocketBridgeOrigin = u) ∧
      (o.websocketBridgeOrigin = none → c.websocketBridgeOrigin = WEBSOCKETBRIDGE_ORIGIN)) ∧
    ((∀ b, o.autoReconnect = some b → c.autoReconnect = b) ∧
      (o.autoReconnect = none → c.autoReconnect = AUTO_RECONNECT)) ∧
    ((∀ n, o.reconnectionTimer = some n → n ≠ 0 → c.reconnectionTimer = n) ∧
      (o.reconnectionTimer = none → c.reconnectionTimer = RECONNECTION_TIMER)) ∧
    ((∀ b, o.secureWebSocket = some b → c.secureWebSocket = b) ∧
      (o.secureWebSocket = none → c.secureWebSocket = SECURE_WEBSOCKET)) := by
  have hok : ctor (CtorInput.obj o) = Except.ok (finishConfig o a) := by
    simp [ctor, h]
  rw [hok] at hc
  injection hc with hce
  subst hce
  refine ⟨rfl, ⟨fun u hu hne => ?_, fun hn => ?_⟩, ⟨fun u hu hne => ?_, fun hn => ?_⟩,
    ⟨fun u hu hne => ?_, fun hn => ?_⟩, ⟨fun n hu hne => ?_, fun hn => ?_⟩,
    ⟨fun u hu hne => ?_, fun hn => ?_⟩, ⟨fun u hu hne => ?_, fun hn => ?_⟩,
    ⟨fun b hu => ?_, fun hn => ?_⟩, ⟨fun n hu hne => ?_, fun hn => ?_⟩,
    ⟨fun b hu => ?_, fun hn => ?_⟩⟩ <;>
    simp [finishConfig, strOrDefault, intOrDefault, boolOrDefault, *]

/-- An options object supplying a subset of fields with truthy or
presence-checked values. -/
def oMergeW : OptionsIn :=
  { appletId := some "x", authUser := some "u1", websocketBridgePort := some 9999,
    autoReconnect := some false }

/-- The configuration `oMergeW` produces. -/
def cfgMergeW : Config := finishConfig oMergeW "x"

/-- Witness for the amended C8 at a concrete options object: supplied
truthy and presence-checked fields are kept, an omitted field gets its
default. -/
theorem c8_merge_witness :
    cfgMergeW.authUser = "u1" ∧ cfgMergeW.websocketBridgePort = 9999 ∧
    cfgMergeW.autoReconnect = false ∧ cfgMergeW.authPass = AUTH_PASS := by
  have hm := c8_merge oMergeW "x" rfl cfgMergeW rfl
  exact ⟨hm.2.1.1 "u1" rfl (by decide), hm.2.2.2.2.1.1 9999 rfl (by decide),
    hm.2.2.2.2.2.2.2.1.1 false rfl, hm.2.2.1.2 rfl⟩

/-- An options object overriding `accepts` with the empty array. -/
def oEmptyList : OptionsIn := { appletId := some "x", accepts := some (AcceptsVal.list []) }

/-- Counterexample to C9 as stated: overriding `accepts` with the
empty array yields a successfully constructed configuration whose
accepted-tag set is empty. -/
theorem c9_nonempty_cex :
    ¬ (∀ (o : OptionsIn) (c : Config) (tags : List String),
        ctor (CtorInput.obj o) = Except.ok c → c.acceptTags = some tags → tags ≠ []) := by
  intro hclaim
  exact hclaim oEmptyList (finishConfig oEmptyList "x") [] rfl rfl rfl

/-- C9 (amended): the accepted-tag set is non-empty whenever `accepts`
is absent or is a string override — from a bare string input or from
an options object; a list override is used as-is and may be empty. -/
theorem c9_nonempty :
    (∀ s : String, ∃ tags, ctorAcceptTags (CtorInput.str s) = some (some tags) ∧ tags ≠ []) ∧
    (∀ (o : OptionsIn) (a : String), o.appletId = some a →
      (o.accepts = none ∨ ∃ s, o.accepts = some (AcceptsVal.str s)) →
      ∃ tags, ctorAcceptTags (CtorInput.obj o) = some (some tags) ∧ tags ≠ []) := by
  constructor
  · intro s
    exact ⟨[s], rfl, by simp⟩
  · rintro o a h (hn | ⟨s, hs⟩)
    · exact ⟨[a], by simp [ctorAcceptTags, ctor, h, finishConfig, mkAcceptTags, hn], by simp⟩
    · exact ⟨[s], by simp [ctorAcceptTags, ctor, h, finishConfig, mkAcceptTags, hs], by simp⟩

/-- Witness for the amended C9 at a concrete options object with
`accepts` absent. -/
theorem c9_nonempty_witness :
    ∃ tags, ctorAcceptTags (CtorInput.obj { appletId := some "x" }) =
      some (some tags) ∧ tags ≠ [] :=
  c9_nonempty.2 { appletId := some "x" } "x" rfl (Or.inl rfl)

/-- C10: when `accepts` is supplied but is neither a string nor a
list, construction nevertheless succeeds with `acceptTags` left
undefined, and the filtering step of every subsequent inbound text
frame then fails on the membership test against the missing set (the
`indexOf` read throws). -/
theorem c10_missing_acceptTags (o : OptionsIn) (a : String) (h : o.appletId = some a)
    (hacc : o.accepts = some AcceptsVal.other) :
    ∃ c, ctor (CtorInput.obj o) = Except.ok c ∧ c.acceptTags = none ∧
      ∀ r : WBRecord, onMessage c (Frame.utf8 r) =
        Except.error (JsError.typeError "cannot read indexOf of undefined") := by
  refine ⟨finishConfig o a, by simp [ctor, h], ?_, fun r => ?_⟩
  · simp [finishConfig, mkAcceptTags, hacc]
  · simp [onMessage, routeUtf8, finishConfig, mkAcceptTags, hacc]

/-- Witness for C10 at a concrete options object whose `accepts` is
neither a string nor a list. -/
theorem c10_missing_acceptTags_witness :
    ∃ c, ctor (CtorInput.obj { appletId := some "x", accepts := some AcceptsVal.other }) =
      Except.ok c ∧ c.acceptTags = none ∧
      ∀ r : WBRecord, onMessage c (Frame.utf8 r) =
        Except.error (JsError.typeError "cannot read indexOf of undefined") :=
  c10_missing_acceptTags { appletId := some "x", accepts := some AcceptsVal.other } "x" rfl rfl

end IoTransitWB
